import Mathlib

/-!
Shallow embedding of `src/app.py` (smart_banking_bot): a four-stage banking
request pipeline classify → route → fetch → humanize, with its failure policy.

External collaborators (the `ollama.chat` text-generation service and the
`requests.post` banking backend) are modelled as an environment of stubbed
response functions; every external call a run performs is recorded in a trace
so that "component X was (not) invoked" is directly statable.
-/

/-- JSON-compatible values, as carried by the banking backend's payloads. -/
inductive Json where
  | str : String → Json
  | num : Int → Json
  | obj : List (String × Json) → Json

mutual

/-- Rendering of a `Json` value the way Python's `str()` renders the
corresponding `dict` inside the humanization f-string. -/
def renderJson : Json → String
  | Json.str s => "\x27" ++ s ++ "\x27"
  | Json.num n => toString n
  | Json.obj kvs => "\x7b" ++ renderFields kvs ++ "\x7d"

/-- Helper of `renderJson` for the comma-separated fields of an object. -/
def renderFields : List (String × Json) → String
  | [] => ""
  | [kv] => "\x27" ++ kv.1 ++ "\x27: " ++ renderJson kv.2
  | kv :: rest => "\x27" ++ kv.1 ++ "\x27: " ++ renderJson kv.2 ++ ", " ++ renderFields rest

end

/-- `fastapi.HTTPException(status_code=..., detail=...)` as raised by the app. -/
structure HTTPException where
  status_code : Nat
  detail : String
  deriving DecidableEq

/-- The `BankQuery` pydantic request model of `src/app.py`. -/
structure BankQuery where
  account_number : String
  query_text : String

/-- One outbound external call made by the pipeline: either a
text-generation chat call (recording the prompt) or a backend HTTP POST
(recording the URL, the authorization header and the JSON payload). -/
inductive ExtCall where
  | chat : String → ExtCall
  | post : String → String → Json → ExtCall

/-- The environment of external collaborators: stubbed replies of the
text-generation service (prompt ↦ reply text) and of the banking backend
(url, auth header, payload ↦ JSON body, or a transport/status error carrying
the exception description `str(e)`), plus the process-wide configuration
`BANK_API_URL` / `BANK_API_KEY`. -/
structure Env where
  chat : String → String
  post : String → String → Json → Except String Json
  bank_api_url : String
  bank_api_key : String

/-- Python's `str.strip()`: drop leading and trailing whitespace.
(Defined over the character list so that concrete instances reduce in the
kernel; Lean's built-in `String.trim` is equivalent but opaque to `decide`.) -/
def pyStrip (s : String) : String :=
  String.mk (((s.data.dropWhile Char.isWhitespace).reverse.dropWhile Char.isWhitespace).reverse)

/-- Python's `str.lower()` on the ASCII range: lowercase every character. -/
def pyLower (s : String) : String :=
  String.mk (s.data.map Char.toLower)

/-- The fixed classification instruction prompt built by
`classify_query_with_deepseek` (the f-string on lines 27–38 of
`src/app.py`), with the raw query text embedded. -/
def classify_prompt (query_text : String) : String :=
  "\n    Classify the following banking query into one of these categories: \n    - balance\n    - mini_statement\n    - last_transaction\n    - loan_balance\n    \n    If the query doesn\x27t match, return \x27unknown\x27.\n    \n    Query: \"" ++ query_text ++ "\"\n    Response:\n    "

/-- The fixed humanization instruction prompt built by
`convert_json_to_readable_format` (the f-string on lines 61–69 of
`src/app.py`), with the query text and the rendered raw JSON embedded. -/
def humanize_prompt (query_text : String) (raw_json : Json) : String :=
  "\n    Convert the following banking API JSON response into a user-friendly message:\n\n    Query: \"" ++ query_text ++ "\"\n    JSON Response:\n    " ++ renderJson raw_json ++ "\n\n    Format it in a short, clear message.\n    "

/-- The closed list of operational category labels accepted by the
classifier's membership test (line 43 of `src/app.py`). -/
def allowed_labels : List String :=
  ["balance", "mini_statement", "last_transaction", "loan_balance"]

/-- `classify_query_with_deepseek` of `src/app.py`: one chat call with the
classification prompt, then `strip().lower()` normalization and the
closed-set membership test; any non-matching reply yields `"unknown"`.
Returns the category together with the trace of external calls made. -/
def classify_query_with_deepseek (env : Env) (query_text : String) :
    String × List ExtCall :=
  let prompt := classify_prompt query_text
  let content := env.chat prompt
  let query_type := pyLower (pyStrip content)
  (if query_type ∈ allowed_labels then query_type else "unknown",
   [ExtCall.chat prompt])

/-- `fetch_bank_data` of `src/app.py`: a single authenticated POST to
`{BANK_API_URL}/{endpoint}`; any `requests.RequestException` (non-success
status via `raise_for_status`, or transport failure) becomes
`HTTPException(400, "API Error: " + str(e))`. -/
def fetch_bank_data (env : Env) (endpoint : String) (payload : Json) :
    Except HTTPException Json × List ExtCall :=
  let url := env.bank_api_url ++ "/" ++ endpoint
  let auth := "Bearer " ++ env.bank_api_key
  (match env.post url auth payload with
   | Except.ok body => Except.ok body
   | Except.error e => Except.error ⟨400, "API Error: " ++ e⟩,
   [ExtCall.post url auth payload])

/-- `convert_json_to_readable_format` of `src/app.py`: one chat call with the
humanization prompt; the reply's content is returned with surrounding
whitespace stripped, otherwise verbatim. -/
def convert_json_to_readable_format (env : Env) (query_text : String)
    (raw_json : Json) : String × List ExtCall :=
  let prompt := humanize_prompt query_text raw_json
  (pyStrip (env.chat prompt), [ExtCall.chat prompt])

/-- The static category-to-endpoint table `endpoint_map` of `bank_query`
(lines 82–87 of `src/app.py`), in insertion order. -/
def endpoint_map : List (String × String) :=
  [("balance", "account/balance"),
   ("mini_statement", "account/mini-statement"),
   ("last_transaction", "account/transactions"),
   ("loan_balance", "account/loan-balance")]

/-- The `bank_query` handler of `src/app.py`: classify, reject categories
with no routing entry with `HTTPException(400, "Query not recognized. Try
rephrasing.")`, fetch from the routed endpoint with the account number as
payload, humanize, and wrap the result as `{"response": ...}`. Returns the
handler's outcome together with the trace of external calls made. -/
def bank_query (env : Env) (request : BankQuery) :
    Except HTTPException (List (String × String)) × List ExtCall :=
  let classified := classify_query_with_deepseek env request.query_text
  let query_type := classified.1
  match List.lookup query_type endpoint_map with
  | none => (Except.error ⟨400, "Query not recognized. Try rephrasing."⟩, classified.2)
  | some endpoint =>
    let payload := Json.obj [("account_number", Json.str request.account_number)]
    let fetched := fetch_bank_data env endpoint payload
    match fetched.1 with
    | Except.error e => (Except.error e, classified.2 ++ fetched.2)
    | Except.ok raw_response =>
      let humanized := convert_json_to_readable_format env request.query_text raw_response
      (Except.ok [("response", humanized.1)], classified.2 ++ fetched.2 ++ humanized.2)

/-- The query text of the spec's Scenario 1. -/
def scenario1_query : String := "what\x27s my balance?"

/-- Stubbed environment of the spec's Scenario 1: the classifier call
answers `"balance"`, the backend answers `{"balance": 100}`, the humanizer
call answers `"Your balance is $100."`. -/
def envScenario1 : Env where
  chat := fun p => if p = classify_prompt scenario1_query then "balance" else "Your balance is $100."
  post := fun _ _ _ => Except.ok (Json.obj [("balance", Json.num 100)])
  bank_api_url := "https://api.bank.com"
  bank_api_key := "secret"

/-- Stubbed environment where the classifier call answers an unsupported
label (`"transfer_funds"`); the backend would succeed if reached. -/
def envUnsupported : Env where
  chat := fun _ => "transfer_funds"
  post := fun _ _ _ => Except.ok (Json.obj [])
  bank_api_url := "https://api.bank.com"
  bank_api_key := "secret"

/-- Stubbed environment where the classifier call answers `"balance"` and
the backend raises a non-2xx error. -/
def envBackendDown : Env where
  chat := fun _ => "balance"
  post := fun _ _ _ => Except.error "400 Client Error: Bad Request"
  bank_api_url := "https://api.bank.com"
  bank_api_key := "secret"

/-- Stubbed environment where the classifier call answers the padded,
capitalized variant `" Balance "` and every later stage succeeds. -/
def envPadded : Env where
  chat := fun p => if p = classify_prompt "q" then " Balance " else "ok"
  post := fun _ _ _ => Except.ok (Json.obj [("balance", Json.num 100)])
  bank_api_url := "https://api.bank.com"
  bank_api_key := "secret"

/-- Stubbed environment where the classifier call answers free text that
matches no label. -/
def envChatty : Env where
  chat := fun _ => "I think you want your balance"
  post := fun _ _ _ => Except.ok (Json.obj [])
  bank_api_url := "https://api.bank.com"
  bank_api_key := "secret"

/-- Characterization of `bank_query` when the classified category has no
entry in `endpoint_map`: the handler raises the bad-request rejection and
the only external call made is the classification chat call. -/
theorem bank_query_eq_of_lookup_none (env : Env) (request : BankQuery)
    (h : List.lookup (classify_query_with_deepseek env request.query_text).1 endpoint_map = none) :
    bank_query env request =
      (Except.error ⟨400, "Query not recognized. Try rephrasing."⟩,
       [ExtCall.chat (classify_prompt request.query_text)]) := by
  simp only [bank_query]
  split
  · rfl
  · rename_i heq
    rw [h] at heq
    exact absurd heq (by simp)

/-- Characterization of `bank_query` when the category is routed but the
backend call fails: the handler re-raises `fetch_bank_data`'s
`HTTPException` and the trace is exactly the classification chat call
followed by the backend POST — the humanizer is never invoked. -/
theorem bank_query_eq_of_post_error (env : Env) (request : BankQuery)
    (endpoint : String) (e : String)
    (h1 : List.lookup (classify_query_with_deepseek env request.query_text).1 endpoint_map = some endpoint)
    (h2 : env.post (env.bank_api_url ++ "/" ++ endpoint) ("Bearer " ++ env.bank_api_key)
        (Json.obj [("account_number", Json.str request.account_number)]) = Except.error e) :
    bank_query env request =
      (Except.error ⟨400, "API Error: " ++ e⟩,
       [ExtCall.chat (classify_prompt request.query_text),
        ExtCall.post (env.bank_api_url ++ "/" ++ endpoint) ("Bearer " ++ env.bank_api_key)
          (Json.obj [("account_number", Json.str request.account_number)])]) := by
  simp only [bank_query]
  split
  · rename_i heq
    rw [h1] at heq
    exact absurd heq (by simp)
  · rename_i ep heq
    rw [h1] at heq
    cases heq
    simp only [fetch_bank_data]
    simp only [h2]
    rfl

/-- Characterization of `bank_query` when the category is routed and the
backend call succeeds: the handler humanizes the raw payload and the trace
is the classification chat call, the backend POST, and the humanization
chat call, in that order. -/
theorem bank_query_eq_of_post_ok (env : Env) (request : BankQuery)
    (endpoint : String) (raw : Json)
    (h1 : List.lookup (classify_query_with_deepseek env request.query_text).1 endpoint_map = some endpoint)
    (h2 : env.post (env.bank_api_url ++ "/" ++ endpoint) ("Bearer " ++ env.bank_api_key)
        (Json.obj [("account_number", Json.str request.account_number)]) = Except.ok raw) :
    bank_query env request =
      (Except.ok [("response", pyStrip (env.chat (humanize_prompt request.query_text raw)))],
       [ExtCall.chat (classify_prompt request.query_text),
        ExtCall.post (env.bank_api_url ++ "/" ++ endpoint) ("Bearer " ++ env.bank_api_key)
          (Json.obj [("account_number", Json.str request.account_number)]),
        ExtCall.chat (humanize_prompt request.query_text raw)]) := by
  simp only [bank_query]
  split
  · rename_i heq
    rw [h1] at heq
    exact absurd heq (by simp)
  · rename_i ep heq
    rw [h1] at heq
    cases heq
    simp only [fetch_bank_data]
    simp only [h2]
    rfl

/-- C1: for input `{account_number: "123", query_text: "what's my balance?"}`,
if the classification call returns `"balance"`, the backend call for endpoint
`account/balance` returns `{"balance": 100}`, and the humanization call
returns `"Your balance is $100."`, then the pipeline completes successfully
and returns exactly `{"response": "Your balance is $100."}`. -/
theorem C1_scenario1 (env : Env)
    (h1 : env.chat (classify_prompt scenario1_query) = "balance")
    (h2 : env.post (env.bank_api_url ++ "/" ++ "account/balance") ("Bearer " ++ env.bank_api_key)
        (Json.obj [("account_number", Json.str "123")]) =
        Except.ok (Json.obj [("balance", Json.num 100)]))
    (h3 : env.chat (humanize_prompt scenario1_query (Json.obj [("balance", Json.num 100)])) =
        "Your balance is $100.") :
    (bank_query env ⟨"123", scenario1_query⟩).1 =
      Except.ok [("response", "Your balance is $100.")] := by
  have hlook : List.lookup
      (classify_query_with_deepseek env (BankQuery.mk "123" scenario1_query).query_text).1
      endpoint_map = some "account/balance" := by
    show List.lookup (classify_query_with_deepseek env scenario1_query).1 endpoint_map = _
    simp only [classify_query_with_deepseek, h1]
    decide
  rw [bank_query_eq_of_post_ok env ⟨"123", scenario1_query⟩ "account/balance"
    (Json.obj [("balance", Json.num 100)]) hlook h2]
  show Except.ok [("response", pyStrip (env.chat (humanize_prompt scenario1_query
    (Json.obj [("balance", Json.num 100)]))))] = _
  rw [h3, show pyStrip "Your balance is $100." = "Your balance is $100." from by decide]

set_option maxRecDepth 8192 in
/-- Witness for C1 at the Scenario 1 stub environment. -/
theorem C1_scenario1_witness :
    (bank_query envScenario1 ⟨"123", scenario1_query⟩).1 =
      Except.ok [("response", "Your balance is $100.")] :=
  C1_scenario1 envScenario1 (by decide) rfl (by decide)

/-- C2: whenever classification yields `unknown` (or any label with no
routing entry), the handler fails with the 400 "Query not recognized. Try
rephrasing." error, and the trace holds only the classification chat call —
neither the backend nor the humanizer is invoked. -/
theorem C2_unrecognized_rejected (env : Env) (request : BankQuery)
    (h : (classify_query_with_deepseek env request.query_text).1 = "unknown" ∨
         List.lookup (classify_query_with_deepseek env request.query_text).1 endpoint_map = none) :
    (bank_query env request).1 =
      Except.error ⟨400, "Query not recognized. Try rephrasing."⟩ ∧
    (bank_query env request).2 = [ExtCall.chat (classify_prompt request.query_text)] := by
  have hnone : List.lookup (classify_query_with_deepseek env request.query_text).1
      endpoint_map = none := by
    rcases h with h | h
    · rw [h]; decide
    · exact h
  rw [bank_query_eq_of_lookup_none env request hnone]
  exact ⟨rfl, rfl⟩

/-- Witness for C2 at a stub whose classifier call answers the unsupported
label `"transfer_funds"`. -/
theorem C2_unrecognized_rejected_witness :
    (bank_query envUnsupported ⟨"123", "please transfer funds"⟩).1 =
      Except.error ⟨400, "Query not recognized. Try rephrasing."⟩ ∧
    (bank_query envUnsupported ⟨"123", "please transfer funds"⟩).2 =
      [ExtCall.chat (classify_prompt "please transfer funds")] :=
  C2_unrecognized_rejected envUnsupported ⟨"123", "please transfer funds"⟩ (Or.inl (by decide))

/-- C3: whenever the routed backend call fails (non-success status or
transport failure, surfaced by the stub as an error with description `e`),
`fetch_bank_data` raises the single 400 `HTTPException` whose detail is
`"API Error: " ++ e` (so the detail contains the underlying cause), the
handler re-raises exactly it, and the trace holds only the classification
chat call and the backend POST — the humanizer is never invoked. -/
theorem C3_backend_error (env : Env) (request : BankQuery) (endpoint e : String)
    (h1 : List.lookup (classify_query_with_deepseek env request.query_text).1 endpoint_map =
        some endpoint)
    (h2 : env.post (env.bank_api_url ++ "/" ++ endpoint) ("Bearer " ++ env.bank_api_key)
        (Json.obj [("account_number", Json.str request.account_number)]) = Except.error e) :
    (fetch_bank_data env endpoint
        (Json.obj [("account_number", Json.str request.account_number)])).1 =
      Except.error ⟨400, "API Error: " ++ e⟩ ∧
    (bank_query env request).1 = Except.error ⟨400, "API Error: " ++ e⟩ ∧
    (bank_query env request).2 =
      [ExtCall.chat (classify_prompt request.query_text),
       ExtCall.post (env.bank_api_url ++ "/" ++ endpoint) ("Bearer " ++ env.bank_api_key)
         (Json.obj [("account_number", Json.str request.account_number)])] := by
  refine ⟨?_, ?_, ?_⟩
  · simp only [fetch_bank_data, h2]
  · rw [bank_query_eq_of_post_error env request endpoint e h1 h2]
  · rw [bank_query_eq_of_post_error env request endpoint e h1 h2]

/-- Witness for C3 at a stub whose backend always fails with
"400 Client Error: Bad Request". -/
theorem C3_backend_error_witness :
    (bank_query envBackendDown ⟨"123", "balance please"⟩).1 =
      Except.error ⟨400, "API Error: 400 Client Error: Bad Request"⟩ :=
  (C3_backend_error envBackendDown ⟨"123", "balance please"⟩ "account/balance"
    "400 Client Error: Bad Request" (by decide) rfl).2.1

/-- C4: classification returns an operational category `c` if and only if
the text-generation reply, after stripping whitespace and lowercasing,
exactly equals `c`; any reply whose normalization is outside the closed
label set yields `"unknown"`. -/
theorem C4_classify_exact_match (env : Env) (query_text c : String)
    (hc : c ∈ allowed_labels) :
    ((classify_query_with_deepseek env query_text).1 = c ↔
      pyLower (pyStrip (env.chat (classify_prompt query_text))) = c) ∧
    (pyLower (pyStrip (env.chat (classify_prompt query_text))) ∉ allowed_labels →
      (classify_query_with_deepseek env query_text).1 = "unknown") := by
  have hres : (classify_query_with_deepseek env query_text).1 =
      if pyLower (pyStrip (env.chat (classify_prompt query_text))) ∈ allowed_labels
      then pyLower (pyStrip (env.chat (classify_prompt query_text))) else "unknown" := rfl
  by_cases hm : pyLower (pyStrip (env.chat (classify_prompt query_text))) ∈ allowed_labels
  · rw [hres, if_pos hm]
    exact ⟨Iff.rfl, fun h => absurd hm h⟩
  · rw [hres, if_neg hm]
    refine ⟨⟨fun h => ?_, fun h => ?_⟩, fun _ => rfl⟩
    · rw [← h] at hc
      exact absurd hc (by decide)
    · rw [h] at hm
      exact absurd hc hm

/-- Witness for C4: a free-text reply normalizes outside the label set and
classification yields `"unknown"`. -/
theorem C4_classify_exact_match_witness :
    (classify_query_with_deepseek envChatty "hello").1 = "unknown" :=
  (C4_classify_exact_match envChatty "hello" "balance" (by decide)).2 (by decide)

set_option maxRecDepth 8192 in
/-- C5 counterexample: with the classifier reply `" Balance "` (a
whitespace-padded, capitalized variant of a valid label) the classifier
itself normalizes it to `"balance"` and the pipeline completes successfully
instead of failing with the "Query not recognized." error. -/
theorem C5_padded_variant_counterexample :
    (classify_query_with_deepseek envPadded "q").1 = "balance" ∧
    (bank_query envPadded ⟨"123", "q"⟩).1 = Except.ok [("response", "ok")] := by
  constructor
  · decide
  · rw [bank_query_eq_of_post_ok envPadded ⟨"123", "q"⟩ "account/balance"
      (Json.obj [("balance", Json.num 100)]) (by decide) rfl]
    show Except.ok [("response", pyStrip (envPadded.chat _))] = _
    rw [show pyStrip (envPadded.chat (humanize_prompt "q" (Json.obj [("balance", Json.num 100)])))
      = "ok" from by decide]

/-- C5 amended: the pipeline fails with the `UnrecognizedQuery` bad-request
error exactly when the classifier reply's normalization (strip + lowercase)
falls outside the closed label set; padded or differently-cased variants of
valid labels are normalized into the set by the classifier and routed
normally. -/
theorem C5_amended_normalized_rejection (env : Env) (request : BankQuery)
    (h : pyLower (pyStrip (env.chat (classify_prompt request.query_text))) ∉ allowed_labels) :
    (classify_query_with_deepseek env request.query_text).1 = "unknown" ∧
    (bank_query env request).1 =
      Except.error ⟨400, "Query not recognized. Try rephrasing."⟩ := by
  have hu : (classify_query_with_deepseek env request.query_text).1 = "unknown" := by
    have hres : (classify_query_with_deepseek env request.query_text).1 =
        if pyLower (pyStrip (env.chat (classify_prompt request.query_text))) ∈ allowed_labels
        then pyLower (pyStrip (env.chat (classify_prompt request.query_text))) else "unknown" := rfl
    rw [hres, if_neg h]
  have hnone : List.lookup (classify_query_with_deepseek env request.query_text).1
      endpoint_map = none := by
    rw [hu]; decide
  exact ⟨hu, by rw [bank_query_eq_of_lookup_none env request hnone]⟩

/-- Witness for the amended C5: a free-text reply is rejected with the
bad-request error. -/
theorem C5_amended_normalized_rejection_witness :
    (bank_query envChatty ⟨"1", "hi"⟩).1 =
      Except.error ⟨400, "Query not recognized. Try rephrasing."⟩ :=
  (C5_amended_normalized_rejection envChatty ⟨"1", "hi"⟩ (by decide)).2

/-- C6: the routing table is the static one-to-one mapping
balance ↦ account/balance, mini_statement ↦ account/mini-statement,
last_transaction ↦ account/transactions, loan_balance ↦ account/loan-balance;
its keys are pairwise distinct (each category resolves to a unique fixed
endpoint) and its values are pairwise distinct (no two categories share an
endpoint). -/
theorem C6_endpoint_map_static_one_to_one :
    List.lookup "balance" endpoint_map = some "account/balance" ∧
    List.lookup "mini_statement" endpoint_map = some "account/mini-statement" ∧
    List.lookup "last_transaction" endpoint_map = some "account/transactions" ∧
    List.lookup "loan_balance" endpoint_map = some "account/loan-balance" ∧
    (endpoint_map.map Prod.fst).Nodup ∧
    (endpoint_map.map Prod.snd).Nodup := by
  refine ⟨rfl, rfl, rfl, rfl, by decide, by decide⟩

/-- C7: the pipeline is deterministic — two runs with identical request
fields and identical stubbed external responses (chat replies, backend
responses, configuration) produce identical outcomes and identical traces. -/
theorem C7_pipeline_deterministic (env env2 : Env) (r r2 : BankQuery)
    (hchat : env.chat = env2.chat) (hpost : env.post = env2.post)
    (hurl : env.bank_api_url = env2.bank_api_url)
    (hkey : env.bank_api_key = env2.bank_api_key)
    (hacct : r.account_number = r2.account_number)
    (hq : r.query_text = r2.query_text) :
    bank_query env r = bank_query env2 r2 := by
  have henv : env = env2 := by
    cases env
    cases env2
    simp only at hchat hpost hurl hkey
    rw [hchat, hpost, hurl, hkey]
  have hr : r = r2 := by
    cases r
    cases r2
    simp only at hacct hq
    rw [hacct, hq]
  rw [henv, hr]

/-- Witness for C7 at the Scenario 1 environment and request. -/
theorem C7_pipeline_deterministic_witness :
    bank_query envScenario1 ⟨"123", scenario1_query⟩ =
      bank_query envScenario1 ⟨"123", scenario1_query⟩ :=
  C7_pipeline_deterministic envScenario1 envScenario1 ⟨"123", scenario1_query⟩
    ⟨"123", scenario1_query⟩ rfl rfl rfl rfl rfl rfl

/-- C8: the humanizer performs exactly one chat call (with the humanization
prompt) and returns the reply stripped of surrounding whitespace, otherwise
verbatim — no validation, no re-classification, no length bound. -/
theorem C8_humanize_once_verbatim (env : Env) (query_text : String) (raw_json : Json) :
    (convert_json_to_readable_format env query_text raw_json).1 =
      pyStrip (env.chat (humanize_prompt query_text raw_json)) ∧
    (convert_json_to_readable_format env query_text raw_json).2 =
      [ExtCall.chat (humanize_prompt query_text raw_json)] :=
  ⟨rfl, rfl⟩

/-- C9: on the empty query text, classification always produces a value —
`"unknown"` or one of the four labels — returning a label exactly when the
reply's normalization equals it, and `"unknown"` otherwise. -/
theorem C9_empty_query_safe (env : Env) :
    ((classify_query_with_deepseek env "").1 = "unknown" ∨
      (classify_query_with_deepseek env "").1 ∈ allowed_labels) ∧
    (pyLower (pyStrip (env.chat (classify_prompt ""))) ∉ allowed_labels →
      (classify_query_with_deepseek env "").1 = "unknown") ∧
    (∀ c, c ∈ allowed_labels → pyLower (pyStrip (env.chat (classify_prompt ""))) = c →
      (classify_query_with_deepseek env "").1 = c) := by
  have hres : (classify_query_with_deepseek env "").1 =
      if pyLower (pyStrip (env.chat (classify_prompt ""))) ∈ allowed_labels
      then pyLower (pyStrip (env.chat (classify_prompt ""))) else "unknown" := rfl
  by_cases hm : pyLower (pyStrip (env.chat (classify_prompt ""))) ∈ allowed_labels
  · rw [hres, if_pos hm]
    exact ⟨Or.inr hm, fun h => absurd hm h, fun c _ h => h⟩
  · rw [hres, if_neg hm]
    exact ⟨Or.inl rfl, fun _ => rfl, fun c hc h => absurd (h ▸ hm) (fun hn => hn hc)⟩

set_option maxRecDepth 8192 in
/-- Witness for C9: the Scenario 1 stub answers its humanization text to the
empty-query classification prompt, which normalizes outside the label set. -/
theorem C9_empty_query_safe_witness :
    (classify_query_with_deepseek envScenario1 "").1 = "unknown" :=
  (C9_empty_query_safe envScenario1).2.1 (by decide)

/-- The first external call of any `bank_query` run is the classification
chat call, whose prompt depends only on the query text. -/
theorem bank_query_trace_head (env : Env) (r : BankQuery) :
    (bank_query env r).2.head? = some (ExtCall.chat (classify_prompt r.query_text)) := by
  simp only [bank_query]
  split
  · rfl
  · split
    · rfl
    · rfl

/-- C10: classification is independent of the account number — for two
requests with the same query text (under the same stubbed replies) the
classifier's outcome and trace coincide, the first external call of each
pipeline run is the same classification chat call, and as long as the
account number has not reached the backend step (unroutable category) the
two runs are identical in full. -/
theorem C10_classification_account_independent (env : Env) (r1 r2 : BankQuery)
    (hq : r1.query_text = r2.query_text) :
    classify_query_with_deepseek env r1.query_text =
      classify_query_with_deepseek env r2.query_text ∧
    (bank_query env r1).2.head? = some (ExtCall.chat (classify_prompt r1.query_text)) ∧
    (bank_query env r2).2.head? = some (ExtCall.chat (classify_prompt r1.query_text)) ∧
    (List.lookup (classify_query_with_deepseek env r1.query_text).1 endpoint_map = none →
      bank_query env r1 = bank_query env r2) := by
  refine ⟨by rw [hq], bank_query_trace_head env r1, by rw [hq]; exact bank_query_trace_head env r2,
    fun hnone => ?_⟩
  rw [bank_query_eq_of_lookup_none env r1 hnone,
    bank_query_eq_of_lookup_none env r2 (by rw [← hq]; exact hnone), hq]

/-- Witness for C10: two accounts, same query text, same full pipeline
outcome while classification rejects the query. -/
theorem C10_classification_account_independent_witness :
    bank_query envChatty ⟨"111", "hi"⟩ = bank_query envChatty ⟨"222", "hi"⟩ :=
  (C10_classification_account_independent envChatty ⟨"111", "hi"⟩ ⟨"222", "hi"⟩
    rfl).2.2.2 (by decide)
